import Mathlib

/-!
# MealAgentPlan: shallow embedding and verification

This file embeds the logic core of the MealAgentPlan repository in Lean 4 and
proves properties of it.  The embedding follows the Python sources:

* `RecipeWorker`  — `src/agents/recipe_worker.py`
* `PlannerAgent`  — `src/agents/planner_agent.py` (mock-plan path)
* `NutritionVerifierAgent` — `src/agents/verifier_agent.py`
* `SchedulerAgent` — `src/agents/scheduler_agent.py`
* `OrchestratorAgent` — `src/orchestrator.py`

Python numbers (ints and floats used for calories, protein, quantities) are
modelled as `ℚ`; Python dictionaries with a fixed set of optional keys are
modelled as structures of `Option` fields, with `.getD` standing for
`dict.get(key, default)`.  Python's stable `list.sort(key=...)` is modelled by
Mathlib's `List.insertionSort` on the key-induced relation, which is a stable
sort producing the same list.  `datetime.now()` and `uuid4()` are passed in as
explicit string parameters.
-/

/-- A row of `nutritions.csv` as used by the verifier: a normalized food-item
name and its gut-friendliness flag. -/
structure NutritionRow where
  food_item : String
  gut_friendly : Bool
deriving DecidableEq

/-- A recipe record from `recipe_db.json` (fields read by the code). -/
structure Recipe where
  id : String
  title : String
  meal_type : List String
  cuisine : String
  calories : ℚ
  protein_g : ℚ
  ingredients : List String
  prep_time_min : ℕ
  allergens : List String
  gut_friendly : Bool
deriving DecidableEq, Inhabited

/-- The `preferences` dictionary: keys are optional, read with
`preferences.get("allergies", [])`, `preferences.get("cuisine", [])`,
`preferences.get("gut_issues", False)`. -/
structure Preferences where
  cuisine : Option (List String)
  dislikes : Option (List String)
  allergies : Option (List String)
  gut_issues : Option Bool
deriving DecidableEq, Inhabited

/-- The `user_profile` dictionary: keys optional, read with `.get(k, default)`. -/
structure Profile where
  name : Option String
  age : Option ℚ
  height_cm : Option ℚ
  weight_kg : Option ℚ
  goal : Option String
  activity_level : Option String
  wake_time : Option String
  sleep_time : Option String
deriving DecidableEq, Inhabited

/-! ## Stable sorting by key

Python's `list.sort(key=f)` sorts ascending by `f` and is stable.  We model it
with Mathlib's `List.insertionSort` over the relation `f a ≤ f b`, which
produces the identical list: `orderedInsert` places each element before the
first already-placed element whose key is `≥` its own, and elements are
inserted right-to-left, so equal-key elements keep their original order. -/

/-- The key-induced sorting relation. -/
def keyRel {α β : Type} (key : α → β) [LinearOrder β] : α → α → Prop :=
  fun a b => key a ≤ key b

instance {α β : Type} (key : α → β) [LinearOrder β] : DecidableRel (keyRel key) :=
  fun a b => inferInstanceAs (Decidable (key a ≤ key b))

instance {α β : Type} (key : α → β) [LinearOrder β] : IsTotal α (keyRel key) :=
  ⟨fun a b => le_total (key a) (key b)⟩

instance {α β : Type} (key : α → β) [LinearOrder β] : IsTrans α (keyRel key) :=
  ⟨fun _ _ _ hab hbc => le_trans hab hbc⟩

/-- Model of Python's stable `list.sort(key=key)` / `sorted(xs, key=key)`. -/
def sortByKey {α β : Type} (key : α → β) [LinearOrder β] (l : List α) : List α :=
  l.insertionSort (keyRel key)

/-! ## RecipeWorker (`src/agents/recipe_worker.py`) -/

namespace RecipeWorker

/-- `RecipeWorker._matches_criteria` (lines 68–85). -/
def matches_criteria (recipe : Recipe) (meal_type : String)
    (exclude_allergens preferred_cuisines : List String)
    (gut_friendly_only : Bool) : Bool :=
  if !(recipe.meal_type.contains meal_type) then false
  else if exclude_allergens.any fun allergen => recipe.allergens.contains allergen then false
  else if !preferred_cuisines.isEmpty && !(preferred_cuisines.contains recipe.cuisine)
      && !((["Indian", "South Indian"] : List String).contains recipe.cuisine) then false
  else if gut_friendly_only && !recipe.gut_friendly then false
  else true

/-- The ranking key: `abs(r["calories"] - calorie_target)`. -/
def rankKey (calorie_target : ℚ) (r : Recipe) : ℚ :=
  |r.calories - calorie_target|

/-- Core of `RecipeWorker.execute` (lines 51–66) with the search parameters
already extracted from the context: filter the catalog, stable-sort by
distance from the calorie target, return the first 5. -/
def search (recipes : List Recipe) (meal_type : String)
    (exclude_allergens preferred_cuisines : List String)
    (gut_friendly_only : Bool) (calorie_target : ℚ) : List Recipe :=
  let matched := recipes.filter fun recipe =>
    matches_criteria recipe meal_type exclude_allergens preferred_cuisines gut_friendly_only
  (sortByKey (rankKey calorie_target) matched).take 5

/-- `RecipeWorker.execute` (lines 28–66): extracts the parameters from the
preferences dictionary (`.get` with defaults) and searches.  Only the
`"recipes"` component of the returned dictionary is modelled; `"total_found"`
is the length of the matched list and is not used by any caller. -/
def execute (recipes : List Recipe) (preferences : Preferences)
    (meal_type : String) (calorie_target : ℚ) : List Recipe :=
  search recipes meal_type (preferences.allergies.getD [])
    (preferences.cuisine.getD []) (preferences.gut_issues.getD false) calorie_target

end RecipeWorker

/-! ## PlannerAgent (`src/agents/planner_agent.py`), mock-plan path -/

/-- One entry of a day's schedule.  In Python these are dictionaries: meal
entries carry the recipe keys, workout entries carry the workout keys; the
`Option` fields record which keys are present.  `slot` is the `"meal"` key. -/
structure PlanEntry where
  slot : String
  time : String
  recipe_id : Option String
  recipe_name : Option String
  cal : Option ℚ
  protein_g : Option ℚ
  ingredients : Option (List String)
  prep_time_min : Option ℕ
  wtype : Option String
  focus : Option String
  duration_min : Option ℕ
  notes : String
deriving DecidableEq, Inhabited

/-- A week plan: day name to list of entries (a Python dict in insertion
order). -/
abbrev WeekPlan := List (String × List PlanEntry)

namespace PlannerAgent

/-- The fixed day list (line 55). -/
def days : List String :=
  ["Monday", "Tuesday", "Wednesday", "Thursday", "Friday", "Saturday", "Sunday"]

/-- The meal-entry dictionary appended for a selected recipe (the repeated
dict literal at lines 71–81, 91–101, 111–121, 132–142, 153–163; only `meal`,
`time` and `notes` differ between slots). -/
def mkMeal (slot time notes : String) (r : Recipe) : PlanEntry :=
  { slot := slot, time := time,
    recipe_id := some r.id, recipe_name := some r.title,
    cal := some r.calories, protein_g := some r.protein_g,
    ingredients := some r.ingredients, prep_time_min := some r.prep_time_min,
    wtype := none, focus := none, duration_min := none, notes := notes }

/-- The rows of the `workout_schedule` dictionary (lines 179–187):
day ↦ (type, focus, duration_min, time). -/
def workout_schedule : List (String × String × String × ℕ × String) :=
  [("Monday", ("resistance", "Upper Body", 45, "18:00")),
   ("Tuesday", ("cardio", "Light Jogging", 30, "07:00")),
   ("Wednesday", ("resistance", "Lower Body", 45, "18:00")),
   ("Thursday", ("yoga", "Flexibility & Core", 30, "07:00")),
   ("Friday", ("resistance", "Full Body", 50, "18:00")),
   ("Saturday", ("sports", "Recreational Activity", 60, "10:00")),
   ("Sunday", ("rest", "Active Recovery", 20, "08:00"))]

/-- `PlannerAgent._get_workout_for_day` (lines 177–199). -/
def get_workout_for_day (day : String) : Option PlanEntry :=
  (workout_schedule.lookup day).map fun w =>
    { slot := "workout", time := w.2.2.2, recipe_id := none, recipe_name := none,
      cal := none, protein_g := none, ingredients := none, prep_time_min := none,
      wtype := some w.1, focus := some w.2.1, duration_min := some w.2.2.1,
      notes := w.2.1 ++ " - " ++ toString w.2.2.1 ++ " minutes" }

/-- One `if <slot>_recipes: daily_meals.append({...})` block of
`_generate_mock_plan`: if the candidate list is non-empty, append the entry
built from the candidate at `idx` (every index used by the code is in
bounds, so `getD` never takes its default). -/
def slotPart (rs : List Recipe) (idx : ℕ) (slot time notes : String) : List PlanEntry :=
  if rs.isEmpty then [] else [mkMeal slot time notes (rs.getD idx default)]

/-- The `workout = self._get_workout_for_day(day); if workout:
daily_meals.append(workout)` block (lines 165–167). -/
def workoutBlock (day : String) : List PlanEntry :=
  match get_workout_for_day day with
  | some w => [w]
  | none => []

/-- The body of the per-day loop of `PlannerAgent._generate_mock_plan`
(lines 60–169): one recipe search per slot with the fixed calorie targets,
index selection per slot as written in the source, then the workout. -/
def buildDay (catalog : List Recipe) (preferences : Preferences) (day : String) :
    List PlanEntry :=
  let breakfast_recipes := RecipeWorker.execute catalog preferences "breakfast" 500
  let snack_recipes := RecipeWorker.execute catalog preferences "snack" 400
  let lunch_recipes := RecipeWorker.execute catalog preferences "lunch" 700
  let evening_snack_recipes := RecipeWorker.execute catalog preferences "snack" 450
  let dinner_recipes := RecipeWorker.execute catalog preferences "dinner" 650
  slotPart breakfast_recipes 0 "breakfast" "08:00" "High-protein breakfast for energy"
    ++ slotPart snack_recipes 0 "snack" "11:00" "Mid-morning snack"
    ++ slotPart lunch_recipes
        (if day ≠ "Monday" then 0 else if 1 < lunch_recipes.length then 1 else 0)
        "lunch" "13:30" "Protein-rich lunch"
    ++ slotPart evening_snack_recipes
        (if 1 < evening_snack_recipes.length then 1 else 0)
        "evening_snack" "17:00" "Pre-workout fuel"
    ++ slotPart dinner_recipes (days.indexOf day % dinner_recipes.length)
        "dinner" "20:00" "Light dinner for gut health"
    ++ workoutBlock day

/-- `PlannerAgent._generate_mock_plan` (lines 49–175), `"meal_plan"`
component: the 7 fixed days in order, each mapped to its entry list.  The
`user_profile` argument is unused by the mock path, as in the source. -/
def generate_mock_plan (catalog : List Recipe) (user_profile : Profile)
    (preferences : Preferences) : WeekPlan :=
  days.map fun day => (day, buildDay catalog preferences day)

/-- The `"estimated_daily_calories"` component: the fixed constant
`target_daily_calories = 3000` (line 58). -/
def estimated_daily_calories : ℚ := 3000

end PlannerAgent

/-! ## NutritionVerifierAgent (`src/agents/verifier_agent.py`) -/

namespace NutritionVerifierAgent

/-- `ingredient.replace(" ", "_").lower()` (line 121; also
`scheduler_agent.py` line 126).  Since the replaced pattern is the single
character `" "`, replace-then-lowercase is the character-wise map that sends
a space to `"_"` and every other character to its lower case. -/
def cleanName (ingredient : String) : String :=
  String.mk (ingredient.data.map fun c => if c = ' ' then '_' else c.toLower)

/-- `NutritionVerifierAgent._calculate_daily_calories` (lines 90–98): total of
the `cal` fields of all entries of all days, divided by
`max(len(meal_plan), 1)`. -/
def calculate_daily_calories (meal_plan : WeekPlan) : ℚ :=
  let total := ((meal_plan.flatMap fun day => day.2.filterMap PlanEntry.cal)).sum
  total / (max meal_plan.length 1 : ℕ)

/-- `NutritionVerifierAgent._calculate_daily_protein` (lines 100–110): total
of the `protein_g` fields divided by `max(len(meal_plan), 1)` if at least one
entry carries the field, else 0. -/
def calculate_daily_protein (meal_plan : WeekPlan) : ℚ :=
  let proteins := meal_plan.flatMap fun day => day.2.filterMap PlanEntry.protein_g
  if 0 < proteins.length then proteins.sum / (max meal_plan.length 1 : ℕ) else 0

/-- One ingredient's gut-risk test from `_check_gut_risks` (lines 120–128):
look up the first nutrition row whose `food_item` equals the cleaned name; the
ingredient is a risk when such a row exists and is not gut-friendly. -/
def isGutRisk (nutrition_data : List NutritionRow) (ingredient : String) : Bool :=
  match nutrition_data.find? fun row => row.food_item == cleanName ingredient with
  | some row => !row.gut_friendly
  | none => false

/-- `NutritionVerifierAgent._check_gut_risks` (lines 112–130): the set of
risky ingredient names occurring in the plan.  Python collects them in a
`set`, whose iteration order is unspecified; we keep one copy of each risky
name via `dedup`. -/
def check_gut_risks (nutrition_data : List NutritionRow) (meal_plan : WeekPlan) :
    List String :=
  ((meal_plan.flatMap fun day => day.2.flatMap fun meal =>
    meal.ingredients.getD []).filter (isGutRisk nutrition_data)).dedup

/-- The `activity_multipliers` dictionary (lines 141–147). -/
def activity_multipliers : List (String × ℚ) :=
  [("sedentary", 1.2), ("light", 1.375), ("moderate", 1.55),
   ("active", 1.725), ("very_active", 1.9)]

/-- `NutritionVerifierAgent._calculate_target_calories` (lines 132–156). -/
def calculate_target_calories (user_profile : Profile) (goal : String) : ℚ :=
  let weight_kg := user_profile.weight_kg.getD 45
  let height_cm := user_profile.height_cm.getD 168
  let age := user_profile.age.getD 20
  let activity_level := user_profile.activity_level.getD "moderate"
  let bmr := 10 * weight_kg + 6.25 * height_cm - 5 * age + 5
  let tdee := bmr * ((activity_multipliers.lookup activity_level).getD 1.55)
  if goal = "gain_weight" then tdee + 500
  else if goal = "lose_weight" then tdee - 500
  else tdee

/-- `NutritionVerifierAgent._calculate_target_protein` (lines 158–161). -/
def calculate_target_protein (user_profile : Profile) : ℚ :=
  user_profile.weight_kg.getD 45 * 2.0

/-- A recommendation line (lines 67–80).  The Python strings embed the
shortfall formatted with `:.0f`; we keep the structured content. -/
inductive Recommendation where
  | increaseCalories (shortfall : ℚ)
  | increaseProtein (shortfall : ℚ)
  | avoidGutRisk (items : List String)
deriving DecidableEq

/-- The result dictionary of `NutritionVerifierAgent.execute` (lines 54–65). -/
structure VerificationResult where
  passed : Bool
  daily_calories : ℚ
  target_calories : ℚ
  calorie_met : Bool
  daily_protein : ℚ
  target_protein : ℚ
  protein_met : Bool
  gut_risk_items : List String
  gut_safe : Bool
  recommendations : List Recommendation
deriving DecidableEq

/-- `NutritionVerifierAgent.execute` (lines 25–88). -/
def execute (nutrition_data : List NutritionRow) (meal_plan : WeekPlan)
    (user_profile : Profile) : VerificationResult :=
  let goal := user_profile.goal.getD "gain_weight"
  let daily_calories := calculate_daily_calories meal_plan
  let daily_protein := calculate_daily_protein meal_plan
  let gut_risk_items := check_gut_risks nutrition_data meal_plan
  let target_calories := calculate_target_calories user_profile goal
  let target_protein := calculate_target_protein user_profile
  let calorie_met := decide (daily_calories ≥ target_calories * 0.9)
  let protein_met := decide (daily_protein ≥ target_protein * 0.9)
  let gut_safe := decide (gut_risk_items.length = 0)
  let verification_passed := calorie_met && protein_met && gut_safe
  { passed := verification_passed,
    daily_calories := daily_calories, target_calories := target_calories,
    calorie_met := calorie_met,
    daily_protein := daily_protein, target_protein := target_protein,
    protein_met := protein_met,
    gut_risk_items := gut_risk_items, gut_safe := gut_safe,
    recommendations :=
      (if calorie_met then [] else
        [Recommendation.increaseCalories (target_calories - daily_calories)])
      ++ (if protein_met then [] else
        [Recommendation.increaseProtein (target_protein - daily_protein)])
      ++ (if gut_safe then [] else [Recommendation.avoidGutRisk gut_risk_items]) }

end NutritionVerifierAgent

/-! ## SchedulerAgent (`src/agents/scheduler_agent.py`) -/

namespace SchedulerAgent

/-- `SchedulerAgent._schedule_meals` (lines 47–64): per day, stable-sort the
entries by their `time` string.  (`wake_time`/`sleep_time` are read from the
profile but unused, as in the source.) -/
def schedule_meals (meal_plan : WeekPlan) : WeekPlan :=
  meal_plan.map fun day => (day.1, sortByKey PlanEntry.time day.2)

/-- The `base_quantities` dictionary of `_estimate_quantity` (lines 96–124). -/
def base_quantities : List (String × ℚ) :=
  [("rice", 0.5), ("chicken", 0.3), ("chicken_breast", 0.25), ("eggs", 2),
   ("milk", 0.2), ("yogurt", 0.15), ("paneer", 0.2), ("vegetables", 0.3),
   ("potato", 0.2), ("sweet_potato", 0.2), ("spinach", 0.2), ("tomatoes", 0.15),
   ("banana", 1), ("dates", 0.05), ("almonds", 0.03), ("cashews", 0.03),
   ("coconut", 0.1), ("ghee", 0.05), ("olive_oil", 0.03),
   ("whole_wheat_flour", 0.15), ("moong_dal", 0.1), ("urad_dal", 0.1),
   ("lentils", 0.1), ("chickpeas", 0.1), ("kidney_beans", 0.1),
   ("semolina", 0.1), ("oats", 0.1)]

/-- Python's `int()` on a rational value: truncation toward zero. -/
def pyInt (q : ℚ) : ℤ :=
  if q < 0 then -((-q).floor) else q.floor

/-- Python's round-half-to-even on a rational, used for `:.1f` formatting. -/
def roundHalfEven (q : ℚ) : ℤ :=
  let f := q.floor
  if q - f < 1/2 then f
  else if 1/2 < q - f then f + 1
  else if f % 2 = 0 then f else f + 1

/-- `f"{total_kg:.1f}kg"` (line 139) for the positive values reaching it. -/
def fmtKg (q : ℚ) : String :=
  let tenths := roundHalfEven (q * 10)
  toString (tenths / 10) ++ "." ++ toString (tenths % 10) ++ "kg"

/-- `SchedulerAgent._estimate_quantity` (lines 91–139). -/
def estimate_quantity (ingredient : String) (meal_count : ℚ) : String :=
  let base_qty := (base_quantities.lookup (NutritionVerifierAgent.cleanName ingredient)).getD 0.1
  let total_kg := base_qty * meal_count
  if ingredient = "eggs" then
    toString (pyInt (total_kg * meal_count)) ++ " pieces"
  else if ingredient = "banana" ∨ ingredient = "dates" then
    toString (pyInt (total_kg * meal_count)) ++ " pieces"
  else if total_kg < 0.1 then
    toString (pyInt (total_kg * 1000)) ++ "g"
  else if total_kg < 1 then
    toString (pyInt (total_kg * 1000)) ++ "g"
  else fmtKg total_kg

/-- A shopping-list item (lines 83–87). -/
structure ShoppingItem where
  item : String
  qty : String
  meals_used : ℕ
deriving DecidableEq

/-- All ingredient occurrences of the plan, in iteration order (the inner
loops of `_generate_shopping_list`, lines 73–78). -/
def planIngredients (meal_plan : WeekPlan) : List String :=
  meal_plan.flatMap fun day => day.2.flatMap fun meal => meal.ingredients.getD []

/-- `SchedulerAgent._generate_shopping_list` (lines 66–89): count ingredient
occurrences, then iterate the distinct names in sorted order
(`sorted(ingredient_counts.items())`). -/
def generate_shopping_list (meal_plan : WeekPlan) : List ShoppingItem :=
  let ings := planIngredients meal_plan
  (sortByKey id ings.dedup).map fun ingredient =>
    let count := ings.count ingredient
    { item := ingredient, qty := estimate_quantity ingredient (count : ℚ),
      meals_used := count }

end SchedulerAgent

/-! ## OrchestratorAgent (`src/orchestrator.py`) and collaborators -/

/-- A `MemoryBank.add_plan_to_history` entry (`src/memory/memory_bank.py`
lines 79–88). -/
structure HistoryEntry where
  date : String
  plan_id : String
  success_rate : ℚ
deriving DecidableEq

/-- The memory-bank data relevant to orchestration. -/
structure Bank where
  user_profile : Profile
  preferences : Preferences
  pantry : List String
  history : List HistoryEntry
deriving DecidableEq

/-- A session record of `SessionService` (status only; the `data` payload is
not inspected by any property we prove). -/
structure Session where
  sid : String
  status : String
deriving DecidableEq

/-- Orchestrator-visible state: the memory bank plus the session map. -/
structure OrchState where
  bank : Bank
  sessions : List Session
deriving DecidableEq

/-- `SessionService.fail_session`: set the status of the named session. -/
def failSession (sessions : List Session) (sid : String) : List Session :=
  sessions.map fun s => if s.sid = sid then { s with status := "failed" } else s

/-- `SessionService.complete_session`: set the status of the named session. -/
def completeSession (sessions : List Session) (sid : String) : List Session :=
  sessions.map fun s => if s.sid = sid then { s with status := "completed" } else s

/-- Python `dict` truthiness for a profile: `not user_profile` holds exactly
when no key is present. -/
def Profile.isEmptyDict (p : Profile) : Bool :=
  p.name.isNone && p.age.isNone && p.height_cm.isNone && p.weight_kg.isNone &&
  p.goal.isNone && p.activity_level.isNone && p.wake_time.isNone && p.sleep_time.isNone

/-- `a.or b` on optional dict keys: `dict.update` keeps the new value when the
key is present in the update, the old one otherwise. -/
def optOr {α : Type} (new old : Option α) : Option α :=
  match new with
  | some x => some x
  | none => old

/-- `user_profile.update(user_input.get("profile", {}))` (line 53). -/
def profileUpdate (p u : Profile) : Profile :=
  { name := optOr u.name p.name, age := optOr u.age p.age,
    height_cm := optOr u.height_cm p.height_cm, weight_kg := optOr u.weight_kg p.weight_kg,
    goal := optOr u.goal p.goal, activity_level := optOr u.activity_level p.activity_level,
    wake_time := optOr u.wake_time p.wake_time, sleep_time := optOr u.sleep_time p.sleep_time }

/-- `preferences.update(user_input.get("preferences", {}))` (line 54). -/
def prefsUpdate (p u : Preferences) : Preferences :=
  { cuisine := optOr u.cuisine p.cuisine, dislikes := optOr u.dislikes p.dislikes,
    allergies := optOr u.allergies p.allergies, gut_issues := optOr u.gut_issues p.gut_issues }

namespace OrchestratorAgent

/-- The `final_result` record (lines 99–115) with its `verification`
sub-record kept whole. -/
structure PlanRecord where
  plan_id : String
  session_id : String
  user : String
  days : WeekPlan
  shopping_list : List SchedulerAgent.ShoppingItem
  estimated_daily_calories : ℚ
  verification : NutritionVerifierAgent.VerificationResult
  created_at : String

/-- `OrchestratorAgent.create_meal_plan` (lines 31–134).  External
nondeterminism is passed in: `sessionId` models `uuid4()`, `now` the
`datetime.now()` plan-id/`created_at` strings and `date` the history date.
The function returns the state after the call together with either the final
result or the propagated error (`ValueError("User profile not found. ...")`,
the spec's `MissingProfileError`); on the error path the session is marked
failed and re-raised, and no history entry is appended. -/
def create_meal_plan (st : OrchState) (catalog : List Recipe)
    (nutrition_data : List NutritionRow)
    (user_input : Option (Profile × Preferences))
    (sessionId now date : String) : OrchState × Except String PlanRecord :=
  let sessions1 := st.sessions ++ [{ sid := sessionId, status := "active" }]
  let user_profile :=
    match user_input with
    | some u => profileUpdate st.bank.user_profile u.1
    | none => st.bank.user_profile
  let preferences :=
    match user_input with
    | some u => prefsUpdate st.bank.preferences u.2
    | none => st.bank.preferences
  if user_profile.isEmptyDict then
    ({ st with sessions := failSession sessions1 sessionId },
      Except.error "User profile not found. Please set up profile first.")
  else
    let meal_plan := PlannerAgent.generate_mock_plan catalog user_profile preferences
    let verification := NutritionVerifierAgent.execute nutrition_data meal_plan user_profile
    let scheduled := SchedulerAgent.schedule_meals meal_plan
    let shopping := SchedulerAgent.generate_shopping_list meal_plan
    let plan_id := "plan_" ++ now
    let record : PlanRecord :=
      { plan_id := plan_id, session_id := sessionId,
        user := user_profile.name.getD "User",
        days := scheduled, shopping_list := shopping,
        estimated_daily_calories := PlannerAgent.estimated_daily_calories,
        verification := verification, created_at := now }
    let entry : HistoryEntry :=
      { date := date, plan_id := plan_id,
        success_rate := if verification.passed then 1.0 else 0.8 }
    ({ bank := { st.bank with history := st.bank.history ++ [entry] },
       sessions := completeSession sessions1 sessionId },
      Except.ok record)

end OrchestratorAgent

/-! ## Helper lemmas about the stable sort -/

theorem sortByKey_nil {α β : Type} (key : α → β) [LinearOrder β] :
    sortByKey key ([] : List α) = [] := rfl

theorem sortByKey_cons {α β : Type} (key : α → β) [LinearOrder β] (x : α) (xs : List α) :
    sortByKey key (x :: xs) = (sortByKey key xs).orderedInsert (keyRel key) x := rfl

theorem sorted_sortByKey {α β : Type} (key : α → β) [LinearOrder β] (l : List α) :
    List.Sorted (keyRel key) (sortByKey key l) :=
  List.sorted_insertionSort (keyRel key) l

theorem mem_sortByKey {α β : Type} (key : α → β) [LinearOrder β] {l : List α} {x : α} :
    x ∈ sortByKey key l ↔ x ∈ l :=
  List.mem_insertionSort (keyRel key)

/-- Inserting an element whose key differs from `k` does not change the
key-`k` sublist. -/
theorem filter_keyEq_orderedInsert_of_ne {α β : Type} (key : α → β) [LinearOrder β]
    (k : β) (x : α) (l : List α) (hx : key x ≠ k) :
    ((l.orderedInsert (keyRel key) x).filter fun a => decide (key a = k))
      = l.filter fun a => decide (key a = k) := by
  induction l with
  | nil => simp [List.orderedInsert, hx]
  | cons y ys ih =>
    rw [List.orderedInsert]
    by_cases h : keyRel key x y
    · rw [if_pos h]
      simp [List.filter_cons, hx]
    · rw [if_neg h]
      simp only [List.filter_cons, ih]

/-- `orderedInsert` places the inserted element in front of every element of
equal key (everything it passes has a strictly smaller key). -/
theorem filter_keyEq_orderedInsert_self {α β : Type} (key : α → β) [LinearOrder β]
    (x : α) (l : List α) :
    ((l.orderedInsert (keyRel key) x).filter fun a => decide (key a = key x))
      = x :: l.filter fun a => decide (key a = key x) := by
  induction l with
  | nil => simp [List.orderedInsert]
  | cons y ys ih =>
    rw [List.orderedInsert]
    by_cases h : keyRel key x y
    · rw [if_pos h]
      simp [List.filter_cons]
    · rw [if_neg h]
      have hy : ¬ (key y = key x) := fun he => h (show keyRel key x y from le_of_eq he.symm)
      simp [List.filter_cons, hy, ih]

/-- Stability of the modelled sort: the elements of any fixed key keep their
input order. -/
theorem filter_keyEq_sortByKey {α β : Type} (key : α → β) [LinearOrder β]
    (k : β) (l : List α) :
    ((sortByKey key l).filter fun a => decide (key a = k))
      = l.filter fun a => decide (key a = k) := by
  induction l with
  | nil => rfl
  | cons x xs ih =>
    rw [sortByKey_cons]
    by_cases hx : key x = k
    · subst hx
      rw [filter_keyEq_orderedInsert_self]
      simp [List.filter_cons, ih]
    · rw [filter_keyEq_orderedInsert_of_ne key k x _ hx]
      simp [List.filter_cons, hx, ih]

/-- The filter of a `take` is a prefix of the filter of the whole list. -/
theorem filter_take_append {α : Type} (p : α → Bool) (n : ℕ) (l : List α) :
    (l.take n).filter p ++ (l.drop n).filter p = l.filter p := by
  rw [← List.filter_append, List.take_append_drop]

/-- Unfolding of `RecipeWorker.matches_criteria` into the four filter
predicates of the claim. -/
theorem matches_criteria_iff (r : Recipe) (meal_type : String)
    (exclude_allergens preferred_cuisines : List String) (gut_friendly_only : Bool) :
    RecipeWorker.matches_criteria r meal_type exclude_allergens preferred_cuisines
        gut_friendly_only = true ↔
      meal_type ∈ r.meal_type
      ∧ (∀ a ∈ exclude_allergens, a ∉ r.allergens)
      ∧ (preferred_cuisines ≠ [] →
          r.cuisine ∈ preferred_cuisines ∨ r.cuisine = "Indian" ∨ r.cuisine = "South Indian")
      ∧ (gut_friendly_only = true → r.gut_friendly = true) := by
  unfold RecipeWorker.matches_criteria
  split_ifs with h1 h2 h3 h4
  all_goals simp_all
  all_goals tauto

/-! ## Claims -/

/-- **C1.** For every week plan and profile, the VerificationResult returned
by verify has `passed = true` iff `daily_calories ≥ 0.9 * target_calories`,
`daily_protein ≥ 0.9 * target_protein` and `gut_risk_items` is empty. -/
theorem C1_verification_passed_iff (nutrition_data : List NutritionRow)
    (meal_plan : WeekPlan) (user_profile : Profile) :
    (NutritionVerifierAgent.execute nutrition_data meal_plan user_profile).passed = true ↔
      ((NutritionVerifierAgent.execute nutrition_data meal_plan user_profile).daily_calories
          ≥ 0.9 * (NutritionVerifierAgent.execute nutrition_data meal_plan user_profile).target_calories
        ∧ (NutritionVerifierAgent.execute nutrition_data meal_plan user_profile).daily_protein
          ≥ 0.9 * (NutritionVerifierAgent.execute nutrition_data meal_plan user_profile).target_protein
        ∧ (NutritionVerifierAgent.execute nutrition_data meal_plan user_profile).gut_risk_items = []) := by
  simp only [NutritionVerifierAgent.execute, Bool.and_eq_true, decide_eq_true_eq,
    List.length_eq_zero, ge_iff_le, and_assoc]
  constructor
  · rintro ⟨h1, h2, h3⟩
    exact ⟨by linarith, by linarith, h3⟩
  · rintro ⟨h1, h2, h3⟩
    exact ⟨by linarith, by linarith, h3⟩

/-- **C3.** For every catalog and search query, every returned recipe
satisfies all four filter predicates, the returned sequence is sorted
ascending by `|calories − calorie_target|` with ties in catalog order (its
key-`k` sublist is a prefix of the matched list's key-`k` sublist for every
`k`), it has length at most 5, and it is empty when no recipe matches. -/
theorem C3_recipe_search_spec (catalog : List Recipe) (meal_type : String)
    (exclude_allergens preferred_cuisines : List String)
    (gut_friendly_only : Bool) (calorie_target : ℚ) :
    let res := RecipeWorker.search catalog meal_type exclude_allergens
      preferred_cuisines gut_friendly_only calorie_target
    let matched := catalog.filter fun r =>
      RecipeWorker.matches_criteria r meal_type exclude_allergens preferred_cuisines
        gut_friendly_only
    (∀ r ∈ res,
        meal_type ∈ r.meal_type
        ∧ (∀ a ∈ exclude_allergens, a ∉ r.allergens)
        ∧ (preferred_cuisines ≠ [] →
            r.cuisine ∈ preferred_cuisines ∨ r.cuisine = "Indian" ∨ r.cuisine = "South Indian")
        ∧ (gut_friendly_only = true → r.gut_friendly = true))
    ∧ res.Pairwise (fun a b =>
        |a.calories - calorie_target| ≤ |b.calories - calorie_target|)
    ∧ (∀ k : ℚ, ∃ rest,
        (res.filter fun r => decide (RecipeWorker.rankKey calorie_target r = k)) ++ rest
          = matched.filter fun r => decide (RecipeWorker.rankKey calorie_target r = k))
    ∧ res.length ≤ 5
    ∧ (matched = [] → res = []) := by
  intro res matched
  have hres : res = (sortByKey (RecipeWorker.rankKey calorie_target) matched).take 5 := rfl
  refine ⟨?_, ?_, ?_, ?_, ?_⟩
  · intro r hr
    have hmem : r ∈ matched := by
      rw [hres] at hr
      exact (mem_sortByKey _).mp ((List.take_sublist 5 _).subset hr)
    exact (matches_criteria_iff r _ _ _ _).mp (List.mem_filter.mp hmem).2
  · rw [hres]
    exact List.Pairwise.sublist (List.take_sublist 5 _)
      (sorted_sortByKey (RecipeWorker.rankKey calorie_target) matched)
  · intro k
    refine ⟨((sortByKey (RecipeWorker.rankKey calorie_target) matched).drop 5).filter
      fun r => decide (RecipeWorker.rankKey calorie_target r = k), ?_⟩
    rw [hres, filter_take_append, filter_keyEq_sortByKey]
  · rw [hres, List.length_take]
    exact min_le_left _ _
  · intro hm
    rw [hres, hm]
    rfl

/-- Summing a flattened list of rationals day-by-day. -/
theorem sum_flatMap_eq {α : Type} (f : α → List ℚ) (l : List α) :
    (l.flatMap f).sum = (l.map fun x => (f x).sum).sum := by
  induction l with
  | nil => rfl
  | cons x xs ih => simp [List.flatMap_cons, List.sum_append, ih]

/-- **C4.** For every week plan with 7 day keys, verify's `daily_calories` is
the sum of the `cal` fields of all entries across all days divided by 7 (the
day-key count), not an average over only the days containing meals. -/
theorem C4_daily_calories_divided_by_seven (nutrition_data : List NutritionRow)
    (meal_plan : WeekPlan) (user_profile : Profile) (h : meal_plan.length = 7) :
    (NutritionVerifierAgent.execute nutrition_data meal_plan user_profile).daily_calories
      = ((meal_plan.map fun day => (day.2.filterMap PlanEntry.cal).sum).sum) / 7 := by
  simp only [NutritionVerifierAgent.execute,
    NutritionVerifierAgent.calculate_daily_calories]
  rw [sum_flatMap_eq, h]
  norm_num

/-- A meal entry used by the `C4` witness plan: 700 calories on Monday. -/
def c4WitnessEntry : PlanEntry :=
  { slot := "lunch", time := "13:30", recipe_id := some "R", recipe_name := some "R",
    cal := some 700, protein_g := some 30, ingredients := some ["rice"],
    prep_time_min := some 10, wtype := none, focus := none, duration_min := none,
    notes := "" }

/-- A 7-day witness plan with a single meal. -/
def c4WitnessPlan : WeekPlan :=
  [("Monday", [c4WitnessEntry]), ("Tuesday", []), ("Wednesday", []),
   ("Thursday", []), ("Friday", []), ("Saturday", []), ("Sunday", [])]

/-- Witness for `C4`: the hypothesis holds for the concrete 7-day plan. -/
theorem C4_witness :
    c4WitnessPlan.length = 7
    ∧ (NutritionVerifierAgent.execute [] c4WitnessPlan default).daily_calories
      = ((c4WitnessPlan.map fun day => (day.2.filterMap PlanEntry.cal).sum).sum) / 7 :=
  ⟨rfl, C4_daily_calories_divided_by_seven [] c4WitnessPlan default rfl⟩

/-- The profile of the `C7` scenario. -/
def c7Profile : Profile :=
  { name := none, age := some 20, height_cm := some 168, weight_kg := some 45,
    goal := some "gain_weight", activity_level := some "moderate",
    wake_time := none, sleep_time := none }

/-- **C7.** For the profile {age 20, height 168, weight 45, goal gain_weight,
activity moderate} the target calories are exactly
(10·45 + 6.25·168 − 5·20 + 5) · 1.55 + 500 = 1405 · 1.55 + 500 = 2677.75. -/
theorem C7_target_calories_scenario :
    NutritionVerifierAgent.calculate_target_calories c7Profile
      (c7Profile.goal.getD "gain_weight") = 2677.75 := by
  have hl : NutritionVerifierAgent.activity_multipliers.lookup "moderate"
      = some (1.55 : ℚ) := rfl
  simp only [NutritionVerifierAgent.calculate_target_calories, c7Profile,
    Option.getD_some, hl]
  norm_num

/-- **C9.** For every week plan in which no entry carries a `protein_g` field
and every profile whose effective weight is positive, verify returns
`daily_protein = 0`, `protein_met = false`, and a protein recommendation. -/
theorem C9_no_protein_entries (nutrition_data : List NutritionRow)
    (meal_plan : WeekPlan) (user_profile : Profile)
    (hnone : ∀ day ∈ meal_plan, ∀ e ∈ day.2, e.protein_g = none)
    (hw : 0 < user_profile.weight_kg.getD 45) :
    (NutritionVerifierAgent.execute nutrition_data meal_plan user_profile).daily_protein = 0
    ∧ (NutritionVerifierAgent.execute nutrition_data meal_plan user_profile).protein_met = false
    ∧ ∃ shortfall, NutritionVerifierAgent.Recommendation.increaseProtein shortfall
        ∈ (NutritionVerifierAgent.execute nutrition_data meal_plan user_profile).recommendations := by
  have hflat : (meal_plan.flatMap fun day => day.2.filterMap PlanEntry.protein_g) = [] := by
    rw [List.flatMap_eq_nil_iff]
    intro day hday
    rw [List.filterMap_eq_nil_iff]
    exact hnone day hday
  have hdp : NutritionVerifierAgent.calculate_daily_protein meal_plan = 0 := by
    simp [NutritionVerifierAgent.calculate_daily_protein, hflat]
  have hpm : ¬ (NutritionVerifierAgent.calculate_daily_protein meal_plan
      ≥ NutritionVerifierAgent.calculate_target_protein user_profile * 0.9) := by
    rw [hdp, NutritionVerifierAgent.calculate_target_protein]
    intro hge
    nlinarith [hw]
  refine ⟨?_, ?_, ?_⟩
  · simpa [NutritionVerifierAgent.execute] using hdp
  · simp [NutritionVerifierAgent.execute, decide_eq_false hpm]
  · refine ⟨NutritionVerifierAgent.calculate_target_protein user_profile
      - NutritionVerifierAgent.calculate_daily_protein meal_plan, ?_⟩
    simp [NutritionVerifierAgent.execute, decide_eq_false hpm]

/-- A protein-free meal entry for the `C9` witness. -/
def c9WitnessEntry : PlanEntry :=
  { slot := "breakfast", time := "08:00", recipe_id := some "X", recipe_name := some "X",
    cal := some 500, protein_g := none, ingredients := some ["oats"],
    prep_time_min := some 5, wtype := none, focus := none, duration_min := none,
    notes := "" }

/-- A one-day witness plan whose entries carry no `protein_g`. -/
def c9WitnessPlan : WeekPlan := [("Monday", [c9WitnessEntry])]

/-- Witness for `C9`: both hypotheses hold at a concrete plan and profile. -/
theorem C9_witness :
    (∀ day ∈ c9WitnessPlan, ∀ e ∈ day.2, e.protein_g = none)
    ∧ 0 < (default : Profile).weight_kg.getD 45
    ∧ ((NutritionVerifierAgent.execute [] c9WitnessPlan default).daily_protein = 0
      ∧ (NutritionVerifierAgent.execute [] c9WitnessPlan default).protein_met = false
      ∧ ∃ shortfall, NutritionVerifierAgent.Recommendation.increaseProtein shortfall
          ∈ (NutritionVerifierAgent.execute [] c9WitnessPlan default).recommendations) :=
  ⟨by decide, by decide, C9_no_protein_entries [] c9WitnessPlan default (by decide) (by decide)⟩

/-! ## Planner lemmas -/

/-- Filtering a meal-slot block for a different slot name gives nothing. -/
theorem filter_slot_slotPart_of_ne (rs : List Recipe) (idx : ℕ)
    (s time notes target : String) (h : s ≠ target) :
    (PlannerAgent.slotPart rs idx s time notes).filter
      (fun e => decide (e.slot = target)) = [] := by
  unfold PlannerAgent.slotPart
  split
  · rfl
  · simp [PlannerAgent.mkMeal, h]

/-- Filtering a meal-slot block for its own slot name returns it whole. -/
theorem filter_slot_slotPart_self (rs : List Recipe) (idx : ℕ) (s time notes : String) :
    (PlannerAgent.slotPart rs idx s time notes).filter
      (fun e => decide (e.slot = s)) = PlannerAgent.slotPart rs idx s time notes := by
  unfold PlannerAgent.slotPart
  split
  · rfl
  · rw [List.filter_cons]
    simp [PlannerAgent.mkMeal]

/-- Every entry produced by the workout lookup has slot `"workout"`. -/
theorem get_workout_slot {day : String} {w : PlanEntry}
    (h : PlannerAgent.get_workout_for_day day = some w) : w.slot = "workout" := by
  unfold PlannerAgent.get_workout_for_day at h
  cases hl : PlannerAgent.workout_schedule.lookup day with
  | none => rw [hl] at h; simp at h
  | some v =>
    rw [hl, Option.map_some'] at h
    obtain rfl := Option.some_inj.mp h
    rfl

/-- The workout block never contributes to a meal-slot filter. -/
theorem filter_slot_workout_block (day target : String) (h : target ≠ "workout") :
    (PlannerAgent.workoutBlock day).filter (fun e => decide (e.slot = target)) = [] := by
  unfold PlannerAgent.workoutBlock
  cases hw : PlannerAgent.get_workout_for_day day with
  | none => rfl
  | some w =>
    have hne : ¬ (w.slot = target) := by
      rw [get_workout_slot hw]
      exact fun he => h he.symm
    simp [List.filter_cons, hne]

/-- The lunch index expression of the source, rewritten as a single
conditional. -/
theorem lunch_index_eq (day : String) (len : ℕ) :
    (if day ≠ "Monday" then 0 else if 1 < len then 1 else 0)
      = if day = "Monday" ∧ 1 < len then 1 else 0 := by
  by_cases h1 : day = "Monday" <;> by_cases h2 : 1 < len <;> simp [h1, h2]

/-- The lunch entries of a built day: one entry, from candidate index 1 on
Monday (degrading to 0 when fewer than 2 candidates exist) and from candidate
index 0 on every other day; none if there are no candidates. -/
theorem lunch_selection_eq (catalog : List Recipe) (preferences : Preferences)
    (day : String) :
    (PlannerAgent.buildDay catalog preferences day).filter
        (fun e => decide (e.slot = "lunch"))
      = (if (RecipeWorker.execute catalog preferences "lunch" 700).isEmpty then []
        else [PlannerAgent.mkMeal "lunch" "13:30" "Protein-rich lunch"
          ((RecipeWorker.execute catalog preferences "lunch" 700).getD
            (if day = "Monday" ∧ 1 < (RecipeWorker.execute catalog preferences "lunch" 700).length
              then 1 else 0) default)]) := by
  unfold PlannerAgent.buildDay
  rw [List.filter_append, List.filter_append, List.filter_append, List.filter_append,
    List.filter_append]
  rw [filter_slot_slotPart_of_ne _ _ "breakfast" _ _ _ (by decide),
    filter_slot_slotPart_of_ne _ _ "snack" _ _ _ (by decide),
    filter_slot_slotPart_of_ne _ _ "evening_snack" _ _ _ (by decide),
    filter_slot_slotPart_of_ne _ _ "dinner" _ _ _ (by decide),
    filter_slot_slotPart_self, filter_slot_workout_block _ _ (by decide)]
  rw [lunch_index_eq]
  simp [PlannerAgent.slotPart]

/-- **C2 (amended).** In the per-day slot selection, the lunch slot takes the
candidate at index 1 on the first day of the week (Monday), degrading to
index 0 when fewer than 2 candidates exist, and the candidate at index 0 on
every other day of the week. -/
theorem C2_lunch_selection_amended (catalog : List Recipe) (preferences : Preferences)
    (day : String) :
    (PlannerAgent.buildDay catalog preferences day).filter
        (fun e => decide (e.slot = "lunch"))
      = (if (RecipeWorker.execute catalog preferences "lunch" 700).isEmpty then []
        else [PlannerAgent.mkMeal "lunch" "13:30" "Protein-rich lunch"
          ((RecipeWorker.execute catalog preferences "lunch" 700).getD
            (if day = "Monday" ∧ 1 < (RecipeWorker.execute catalog preferences "lunch" 700).length
              then 1 else 0) default)]) :=
  lunch_selection_eq catalog preferences day

/-- First concrete lunch recipe (closest to the 700-calorie target, so it is
ranked at index 0). -/
def cexL1 : Recipe :=
  { id := "L1", title := "Lunch One", meal_type := ["lunch"], cuisine := "Indian",
    calories := 700, protein_g := 20, ingredients := ["rice"], prep_time_min := 10,
    allergens := [], gut_friendly := true }

/-- Second concrete lunch recipe (ranked at index 1). -/
def cexL2 : Recipe :=
  { id := "L2", title := "Lunch Two", meal_type := ["lunch"], cuisine := "Indian",
    calories := 710, protein_g := 20, ingredients := ["rice"], prep_time_min := 10,
    allergens := [], gut_friendly := true }

/-- Empty preferences dictionary. -/
def cexPrefs : Preferences :=
  { cuisine := none, dislikes := none, allergies := none, gut_issues := none }

/-- The two-recipe catalog's lunch search, evaluated: both recipes match and
`L1` (distance 0 from the 700 target) ranks before `L2` (distance 10). -/
theorem cex_lunch_execute :
    RecipeWorker.execute [cexL1, cexL2] cexPrefs "lunch" 700 = [cexL1, cexL2] := by
  have hfilter : ([cexL1, cexL2] : List Recipe).filter (fun recipe =>
      RecipeWorker.matches_criteria recipe "lunch" [] [] false) = [cexL1, cexL2] := by
    rfl
  have hrel : keyRel (RecipeWorker.rankKey 700) cexL1 cexL2 := by
    show RecipeWorker.rankKey 700 cexL1 ≤ RecipeWorker.rankKey 700 cexL2
    unfold RecipeWorker.rankKey cexL1 cexL2
    norm_num
  have hsort : sortByKey (RecipeWorker.rankKey 700) [cexL1, cexL2] = [cexL1, cexL2] := by
    rw [sortByKey_cons, sortByKey_cons, sortByKey_nil, List.orderedInsert_nil,
      List.orderedInsert_of_le _ _ hrel]
  simp only [RecipeWorker.execute, RecipeWorker.search, cexPrefs, Option.getD_none]
  rw [hfilter, hsort]
  rfl

/-- **C2 (counterexample).** On Tuesday — a day other than the first day of
the week — with two lunch candidates available, the built day takes the
candidate at index 0 (`"L1"`), not the candidate at index 1 as the claim
states. -/
theorem C2_counterexample :
    1 < (RecipeWorker.execute [cexL1, cexL2] cexPrefs "lunch" 700).length
    ∧ (PlannerAgent.buildDay [cexL1, cexL2] cexPrefs "Tuesday").filter
        (fun e => decide (e.slot = "lunch"))
      = [PlannerAgent.mkMeal "lunch" "13:30" "Protein-rich lunch"
          ((RecipeWorker.execute [cexL1, cexL2] cexPrefs "lunch" 700).getD 0 default)]
    ∧ ¬ ((PlannerAgent.buildDay [cexL1, cexL2] cexPrefs "Tuesday").filter
        (fun e => decide (e.slot = "lunch"))
      = [PlannerAgent.mkMeal "lunch" "13:30" "Protein-rich lunch"
          ((RecipeWorker.execute [cexL1, cexL2] cexPrefs "lunch" 700).getD 1 default)]) := by
  have he := cex_lunch_execute
  have hl := lunch_selection_eq [cexL1, cexL2] cexPrefs "Tuesday"
  rw [he] at hl
  have hl2 : (PlannerAgent.buildDay [cexL1, cexL2] cexPrefs "Tuesday").filter
      (fun e => decide (e.slot = "lunch"))
      = [PlannerAgent.mkMeal "lunch" "13:30" "Protein-rich lunch" cexL1] := by
    simpa using hl
  refine ⟨?_, ?_, ?_⟩
  · rw [he]
    simp
  · rw [he]
    simpa using hl2
  · rw [he]
    intro hcontra
    rw [hl2] at hcontra
    simp [PlannerAgent.mkMeal, cexL1, cexL2] at hcontra

/-- Every day of the fixed week has a workout in the lookup table. -/
theorem workout_isSome_of_mem_days :
    ∀ day ∈ PlannerAgent.days, (PlannerAgent.get_workout_for_day day).isSome := by
  decide

/-- A built day is never empty when the day has a workout: the entry list
ends with the workout block. -/
theorem buildDay_ne_nil (catalog : List Recipe) (preferences : Preferences)
    {day : String} (h : (PlannerAgent.get_workout_for_day day).isSome) :
    PlannerAgent.buildDay catalog preferences day ≠ [] := by
  obtain ⟨w, hw⟩ := Option.isSome_iff_exists.mp h
  unfold PlannerAgent.buildDay
  intro hc
  rw [List.append_eq_nil, List.append_eq_nil, List.append_eq_nil, List.append_eq_nil,
    List.append_eq_nil] at hc
  have hwb := hc.2
  unfold PlannerAgent.workoutBlock at hwb
  rw [hw] at hwb
  exact List.cons_ne_nil w [] hwb

/-- **C8.** For every catalog, profile and preferences, the generated week
plan has exactly the 7 day keys Monday…Sunday in order, and (whenever the
catalog is non-empty) each day's entry list is non-empty. -/
theorem C8_seven_days (catalog : List Recipe) (user_profile : Profile)
    (preferences : Preferences) (hcat : catalog ≠ []) :
    (PlannerAgent.generate_mock_plan catalog user_profile preferences).map Prod.fst
      = PlannerAgent.days
    ∧ ∀ day ∈ PlannerAgent.generate_mock_plan catalog user_profile preferences,
        day.2 ≠ [] := by
  constructor
  · simp [PlannerAgent.generate_mock_plan, Function.comp_def]
  · intro day hday
    simp only [PlannerAgent.generate_mock_plan, List.mem_map] at hday
    obtain ⟨d, hd, rfl⟩ := hday
    exact buildDay_ne_nil catalog preferences (workout_isSome_of_mem_days d hd)

/-- Witness for `C8`: a concrete non-empty catalog. -/
theorem C8_witness :
    ([cexL1] : List Recipe) ≠ []
    ∧ ((PlannerAgent.generate_mock_plan [cexL1] default cexPrefs).map Prod.fst
        = PlannerAgent.days
      ∧ ∀ day ∈ PlannerAgent.generate_mock_plan [cexL1] default cexPrefs, day.2 ≠ []) :=
  ⟨List.cons_ne_nil cexL1 [], C8_seven_days [cexL1] default cexPrefs (List.cons_ne_nil cexL1 [])⟩

/-- The whole workout block passes a `"workout"`-slot filter. -/
theorem filter_workout_buildDay (catalog : List Recipe) (preferences : Preferences)
    {day : String} {w : PlanEntry} (hw : PlannerAgent.get_workout_for_day day = some w) :
    (PlannerAgent.buildDay catalog preferences day).filter
      (fun e => decide (e.slot = "workout")) = [w] := by
  unfold PlannerAgent.buildDay
  rw [List.filter_append, List.filter_append, List.filter_append, List.filter_append,
    List.filter_append]
  rw [filter_slot_slotPart_of_ne _ _ "breakfast" _ _ _ (by decide),
    filter_slot_slotPart_of_ne _ _ "snack" _ _ _ (by decide),
    filter_slot_slotPart_of_ne _ _ "lunch" _ _ _ (by decide),
    filter_slot_slotPart_of_ne _ _ "evening_snack" _ _ _ (by decide),
    filter_slot_slotPart_of_ne _ _ "dinner" _ _ _ (by decide)]
  unfold PlannerAgent.workoutBlock
  rw [hw]
  simp [List.filter_cons, get_workout_slot hw]

/-- **C10.** Every day of the generated week plan contains exactly one
workout entry — the one produced by the fixed weekday lookup — so each day's
entry list is non-empty even when the recipe catalog is empty. -/
theorem C10_one_workout_per_day (catalog : List Recipe) (user_profile : Profile)
    (preferences : Preferences) :
    ∀ day ∈ PlannerAgent.generate_mock_plan catalog user_profile preferences,
      ∃ w, PlannerAgent.get_workout_for_day day.1 = some w
        ∧ day.2.filter (fun e => decide (e.slot = "workout")) = [w]
        ∧ day.2 ≠ [] := by
  intro day hday
  simp only [PlannerAgent.generate_mock_plan, List.mem_map] at hday
  obtain ⟨d, hd, rfl⟩ := hday
  have hs := workout_isSome_of_mem_days d hd
  obtain ⟨w, hw⟩ := Option.isSome_iff_exists.mp hs
  exact ⟨w, hw, filter_workout_buildDay catalog preferences hw,
    buildDay_ne_nil catalog preferences hs⟩

/-- Witness for `C10`: the Wednesday entry of the plan built from an empty
catalog. -/
theorem C10_witness :
    ("Wednesday", PlannerAgent.buildDay [] cexPrefs "Wednesday")
        ∈ PlannerAgent.generate_mock_plan [] default cexPrefs
    ∧ ∃ w, PlannerAgent.get_workout_for_day
          (("Wednesday", PlannerAgent.buildDay [] cexPrefs "Wednesday") : String × List PlanEntry).1 = some w
        ∧ (("Wednesday", PlannerAgent.buildDay [] cexPrefs "Wednesday") : String × List PlanEntry).2.filter
            (fun e => decide (e.slot = "workout")) = [w]
        ∧ (("Wednesday", PlannerAgent.buildDay [] cexPrefs "Wednesday") : String × List PlanEntry).2 ≠ [] :=
  ⟨List.mem_map.mpr ⟨"Wednesday", by decide, rfl⟩,
    C10_one_workout_per_day [] default cexPrefs
      ("Wednesday", PlannerAgent.buildDay [] cexPrefs "Wednesday")
      (List.mem_map.mpr ⟨"Wednesday", by decide, rfl⟩)⟩

/-- **C5.** When `create_meal_plan` runs with an empty profile (none on file
and none supplied), it fails with the missing-profile error
(`ValueError("User profile not found. Please set up profile first.")`, the
spec's `MissingProfileError`) propagated to the caller, and no plan record is
returned and no history entry is written: the history is unchanged. -/
theorem C5_empty_profile_no_side_effects (st : OrchState) (catalog : List Recipe)
    (nutrition_data : List NutritionRow) (sessionId now date : String)
    (h : st.bank.user_profile.isEmptyDict = true) :
    (OrchestratorAgent.create_meal_plan st catalog nutrition_data none sessionId now date).2
      = Except.error "User profile not found. Please set up profile first."
    ∧ (OrchestratorAgent.create_meal_plan st catalog nutrition_data none
        sessionId now date).1.bank.history = st.bank.history
    ∧ (OrchestratorAgent.create_meal_plan st catalog nutrition_data none
        sessionId now date).1.bank.history.length = st.bank.history.length := by
  unfold OrchestratorAgent.create_meal_plan
  simp [h]

/-- The state used by the `C5` witness: empty profile, empty history. -/
def c5State : OrchState :=
  { bank := { user_profile := default, preferences := default, pantry := [], history := [] },
    sessions := [] }

/-- Witness for `C5`: the hypothesis holds for the concrete empty state. -/
theorem C5_witness :
    c5State.bank.user_profile.isEmptyDict = true
    ∧ ((OrchestratorAgent.create_meal_plan c5State [] [] none "sid-1" "20260101_120000" "2026-01-01").2
        = Except.error "User profile not found. Please set up profile first."
      ∧ (OrchestratorAgent.create_meal_plan c5State [] [] none "sid-1" "20260101_120000"
          "2026-01-01").1.bank.history = c5State.bank.history
      ∧ (OrchestratorAgent.create_meal_plan c5State [] [] none "sid-1" "20260101_120000"
          "2026-01-01").1.bank.history.length = c5State.bank.history.length) :=
  ⟨by decide,
    C5_empty_profile_no_side_effects c5State [] [] "sid-1" "20260101_120000" "2026-01-01"
      (by decide)⟩

/-- **C6.** For the piece-counted ingredients, the quantity string for
occurrence count `n` is the integer part of `base_qty * n * n` followed by
`" pieces"` — the base quantity is multiplied by the occurrence count twice —
with base 2 for eggs, 1 for banana and 0.05 for dates. -/
theorem C6_piece_quantities_doubled (n : ℕ) :
    SchedulerAgent.estimate_quantity "eggs" (n : ℚ)
      = toString (SchedulerAgent.pyInt ((2 : ℚ) * n * n)) ++ " pieces"
    ∧ SchedulerAgent.estimate_quantity "banana" (n : ℚ)
      = toString (SchedulerAgent.pyInt ((1 : ℚ) * n * n)) ++ " pieces"
    ∧ SchedulerAgent.estimate_quantity "dates" (n : ℚ)
      = toString (SchedulerAgent.pyInt ((0.05 : ℚ) * n * n)) ++ " pieces" :=
  ⟨rfl, rfl, rfl⟩
